import Mathlib

/-!
Verification of the anomaly-detection control logic of the repository:
the temporal gate, buffer routing and retraining condition of
`src/detect_anomaly.py` (`run_pipeline`), and the ensemble combination
strategies of `src/ensemble_inference.py` (`EnsembleDetector`).

Scores, thresholds and wall-clock times are modelled as rationals;
samples as triples of rationals; the fitted models and external I/O
(InfluxDB, joblib, MLflow) are abstracted as inputs to each loop
iteration, exactly as the loop body consumes their results.
-/

namespace AnomalyDetection

/-! ### detect_anomaly.py: configuration constants -/

/-- `CPU_SURGE_THRESHOLD = 10.0` -/
def CPU_SURGE_THRESHOLD : ℚ := 10

/-- `MEM_SURGE_THRESHOLD = 30.0` -/
def MEM_SURGE_THRESHOLD : ℚ := 30

/-- `NET_SURGE_THRESHOLD = 15000.0` -/
def NET_SURGE_THRESHOLD : ℚ := 15000

/-- `ANOMALY_THRESHOLD = 12` consecutive detections before alerting. -/
def ANOMALY_THRESHOLD : Nat := 12

/-! ### detect_anomaly.py: data model of one loop iteration -/

/-- One live sample `{cpu_usage, memory_usage, network_load}` as fetched
from InfluxDB by `fetch_live_logs`. -/
structure Sample where
  cpu_usage : ℚ
  memory_usage : ℚ
  network_load : ℚ
deriving DecidableEq, Repr

/-- The surge condition of `run_pipeline`:
`cpu_val >= CPU_SURGE_THRESHOLD or mem_val >= MEM_SURGE_THRESHOLD or
net_val >= NET_SURGE_THRESHOLD`. -/
def surge_condition (s : Sample) : Bool :=
  decide (CPU_SURGE_THRESHOLD ≤ s.cpu_usage) ||
    decide (MEM_SURGE_THRESHOLD ≤ s.memory_usage) ||
      decide (NET_SURGE_THRESHOLD ≤ s.network_load)

/-- `pandas.DataFrame.tail(n)`: keep only the last `n` rows. -/
def tailN (n : Nat) (l : List Sample) : List Sample :=
  l.drop (l.length - n)

/-- The mutable state `run_pipeline` carries across iterations:
the gate counter `anomaly_counter`, the persisted historical CSV
(the training buffer), the detected-anomalies CSV (the archive), and
`last_retrain_time`. -/
structure PipelineState where
  anomaly_counter : Nat
  trainingBuffer : List Sample
  anomalyArchive : List Sample
  last_retrain_time : ℚ
deriving DecidableEq, Repr

/-- The external inputs one iteration of the loop body consumes once a
live sample is available: the sample itself, the raw model label
(`model_prediction`, true meaning anomaly, i.e. `model.predict == -1`),
and the current wall-clock time `time.time()`. -/
structure StepInput where
  sample : Sample
  model_prediction : Bool
  now : ℚ
deriving DecidableEq, Repr

/-- The observable outputs of one iteration: the alert written to the
`ai_predictions` measurement (`is_anomaly`), and whether this iteration
retrained the model. -/
structure StepOutput where
  ai_status : Bool
  retrained : Bool
deriving DecidableEq, Repr

/-- Whether the sample qualifies for the gate counter:
`model_prediction == 1 and surge_condition`. -/
def qualifies (inp : StepInput) : Bool :=
  inp.model_prediction && surge_condition inp.sample

/-- `save_detected_anomaly`: append the sample to the detected-anomalies
CSV, keeping the last 1000 rows (`pd.concat(...).tail(1000)`). -/
def save_detected_anomaly (archive : List Sample) (s : Sample) : List Sample :=
  tailN 1000 (archive ++ [s])

/-- One iteration of the `while True` body of `run_pipeline` on a live
sample: temporal gating, buffer routing and the retraining check, in
program order. Model fitting itself is an external effect; the step
records whether it fired. -/
def step (st : PipelineState) (inp : StepInput) : PipelineState × StepOutput :=
  let gate :=
    if qualifies inp then
      let c := st.anomaly_counter + 1
      (c, decide (ANOMALY_THRESHOLD ≤ c))
    else
      (0, false)
  let bufs :=
    if inp.model_prediction = false then
      (tailN 2000 (st.trainingBuffer ++ [inp.sample]), st.anomalyArchive)
    else
      (st.trainingBuffer, save_detected_anomaly st.anomalyArchive inp.sample)
  let retrained :=
    decide (30 ≤ bufs.1.length) && decide ((300 : ℚ) < inp.now - st.last_retrain_time)
  let last_retrain_time := if retrained then inp.now else st.last_retrain_time
  (⟨gate.1, bufs.1, bufs.2, last_retrain_time⟩, ⟨gate.2, retrained⟩)

/-- Run the loop body over a list of iteration inputs, collecting the
alert output of every iteration. -/
def runSteps (st : PipelineState) : List StepInput → PipelineState × List Bool
  | [] => (st, [])
  | inp :: rest =>
    let r := step st inp
    let rr := runSteps r.1 rest
    (rr.1, r.2.ai_status :: rr.2)

/-! ### ensemble_inference.py: data model -/

/-- The entry recorded for one model in `model_votes`: either the
`{"prediction": ..., "score": ...}` record, or the `{"error": ...}`
marker when the model raised. -/
inductive ModelVote where
  | ok (prediction : Bool) (score : ℚ)
  | err (msg : String)
deriving DecidableEq, Repr

/-- The three keys of `ENSEMBLE_STRATEGIES`. -/
inductive Strategy where
  | hard
  | soft
  | weighted
deriving DecidableEq, Repr

/-- Python `str.lower()` on the strategy names (per-character lowering). -/
def strLower (s : String) : String := String.mk (s.data.map Char.toLower)

/-- Membership test of `strategy.lower()` among the keys of
`ENSEMBLE_STRATEGIES`. -/
def parseStrategy (s : String) : Option Strategy :=
  if strLower s = "hard" then some Strategy.hard
  else if strLower s = "soft" then some Strategy.soft
  else if strLower s = "weighted" then some Strategy.weighted
  else none

/-- The static `MODEL_WEIGHTS` table
(0.40, 0.35, 0.25 for the three known model files). -/
def MODEL_WEIGHTS (name : String) : Option ℚ :=
  if name = "isolation_forest_model.pkl" then some (2 / 5)
  else if name = "elliptic_envelope_model.pkl" then some (7 / 20)
  else if name = "lof_model_model.pkl" then some (1 / 4)
  else none

/-- `self.MODEL_WEIGHTS.get(model_name, 1.0 / len(self.models))`. -/
def getWeight (numModels : Nat) (name : String) : ℚ :=
  (MODEL_WEIGHTS name).getD (1 / (numModels : ℚ))

/-- The configuration state of an `EnsembleDetector`; `numModels` is
`len(self.models)`, the number of successfully loaded models. -/
structure EnsembleDetector where
  strategy : Strategy
  threshold : ℚ
  numModels : Nat
deriving DecidableEq, Repr

/-- `EnsembleDetector.__init__`: lowers and validates the strategy name
and stores the threshold. Model and scaler loading are external I/O and
are summarised by `numModels`. The threshold is stored unvalidated,
exactly as in the constructor. -/
def EnsembleDetector.init (strategy : String) (threshold : ℚ) (numModels : Nat) :
    Except String EnsembleDetector :=
  match parseStrategy strategy with
  | some s => Except.ok ⟨s, threshold, numModels⟩
  | none => Except.error ("Strategy must be one of: hard, soft, weighted")

/-- `EnsembleDetector.set_threshold`: rejects thresholds outside `[0, 1]`. -/
def EnsembleDetector.set_threshold (d : EnsembleDetector) (threshold : ℚ) :
    Except String EnsembleDetector :=
  if 0 ≤ threshold ∧ threshold ≤ 1 then Except.ok { d with threshold := threshold }
  else Except.error ("Threshold must be between 0 and 1")

/-- The `[v["prediction"] for v in model_votes.values() if "prediction" in v]`
extraction: predictions of the models that did not raise. -/
def predsOf (votes : List (String × ModelVote)) : List Bool :=
  votes.filterMap fun nv =>
    match nv.2 with
    | ModelVote.ok p _ => some p
    | ModelVote.err _ => none

/-- The `(model_name, vote["score"])` pairs of the models that did not
raise, in iteration order of `model_votes`. -/
def scoresOf (votes : List (String × ModelVote)) : List (String × ℚ) :=
  votes.filterMap fun nv =>
    match nv.2 with
    | ModelVote.ok _ s => some (nv.1, s)
    | ModelVote.err _ => none

/-- `[abs(v["score"]) for v in model_votes.values() if "score" in v]`. -/
def absScores (votes : List (String × ModelVote)) : List ℚ :=
  (scoresOf votes).map fun p => |p.2|

/-- Python `max` on a nonempty list (0 on the empty list, which neither
caller reaches). -/
def listMax : List ℚ → ℚ
  | [] => 0
  | x :: xs => xs.foldl max x

/-- `EnsembleDetector._hard_voting`: ensemble score is the fraction of
anomaly votes; anomaly iff `anomaly_count >= total_models * 2 / 3`. -/
def hardVoting (votes : List (String × ModelVote)) : ℚ × Bool :=
  let predictions := predsOf votes
  if predictions = [] then (0, false)
  else
    let anomaly_count : ℚ := ((predictions.filter fun b => b).length : ℚ)
    let total_models : ℚ := (predictions.length : ℚ)
    (anomaly_count / total_models, decide (total_models * 2 / 3 ≤ anomaly_count))

/-- `EnsembleDetector._soft_voting`: normalise each `|score|` by the
maximum `|score|` of this call (substituting 1.0 for a zero maximum),
average, and compare against the threshold. -/
def softVoting (votes : List (String × ModelVote)) (threshold : ℚ) : ℚ × Bool :=
  let scores := absScores votes
  if scores = [] then (0, false)
  else
    let max_raw := listMax scores
    let max_score := if max_raw = 0 then 1 else max_raw
    let normalized := scores.map fun s => s / max_score
    let ensemble_score := normalized.sum / (normalized.length : ℚ)
    (ensemble_score, decide (threshold ≤ ensemble_score))

/-- The `weight_sum` accumulated by `_weighted_voting` over the models
that produced a score. -/
def weightSum (pairs : List (String × ℚ)) (numModels : Nat) : ℚ :=
  (pairs.map fun p => getWeight numModels p.1).sum

/-- The `weighted_sum` accumulated by `_weighted_voting` over the models
that produced a score. -/
def weightedSum (pairs : List (String × ℚ)) (numModels : Nat) : ℚ :=
  (pairs.map fun p => |p.2| * getWeight numModels p.1).sum

/-- `EnsembleDetector._weighted_voting`: weighted mean of `|score|`,
re-normalised by the maximum observed `|score|`
(`max(..., default=1.0)`, applied only when positive), then compared
against the threshold; `(0.0, 0)` when the weight sum is zero. -/
def weightedVoting (votes : List (String × ModelVote)) (numModels : Nat)
    (threshold : ℚ) : ℚ × Bool :=
  let pairs := scoresOf votes
  let weight_sum := weightSum pairs numModels
  if weight_sum = 0 then (0, false)
  else
    let pre_score := weightedSum pairs numModels / weight_sum
    let max_score := if absScores votes = [] then 1 else listMax (absScores votes)
    let ensemble_score := if 0 < max_score then pre_score / max_score else pre_score
    (ensemble_score, decide (threshold ≤ ensemble_score))

/-- The outcome of running one model inside `predict`: a successful
`(prediction, score)` pair becomes an `ok` vote, a raised exception
becomes an `err` marker. -/
def runModel (r : Except String (Bool × ℚ)) : ModelVote :=
  match r with
  | Except.ok ps => ModelVote.ok ps.1 ps.2
  | Except.error e => ModelVote.err e

/-- The `model_votes` mapping built by `predict` from the per-model
outcomes, in model iteration order. -/
def votesOf (modelResults : List (String × Except String (Bool × ℚ))) :
    List (String × ModelVote) :=
  modelResults.map fun nr => (nr.1, runModel nr.2)

/-- The strategy-dispatch block of `predict`
(`if self.strategy == "hard": ... elif ... elif ...`). -/
def combineVotes (d : EnsembleDetector) (votes : List (String × ModelVote)) :
    ℚ × Bool :=
  match d.strategy with
  | Strategy.hard => hardVoting votes
  | Strategy.soft => softVoting votes d.threshold
  | Strategy.weighted => weightedVoting votes d.numModels d.threshold

/-- `EnsembleDetector.predict`: validates the feature-vector length,
runs every model (exceptions becoming error markers), and dispatches to
the configured voting strategy. The models themselves are external
fitted artifacts, so their per-call outcomes are an input. -/
def EnsembleDetector.predict (d : EnsembleDetector) (features : List ℚ)
    (modelResults : List (String × Except String (Bool × ℚ))) :
    Except String (ℚ × Bool × List (String × ModelVote)) :=
  if features.length ≠ 3 then
    Except.error ("Expected 3 features")
  else
    let model_votes := votesOf modelResults
    let r := combineVotes d model_votes
    Except.ok (r.1, r.2, model_votes)

/-- Arithmetic mean of a list of rationals (the spec's wording for the
soft ensemble score). -/
def mean (l : List ℚ) : ℚ := l.sum / (l.length : ℚ)

/-- The soft ensemble score as the spec words it: the mean over the
scoring models of `|score|` divided by the maximum `|score|` of the
call. Stated from the spec, to be compared with `softVoting`. -/
def softSpecScore (votes : List (String × ModelVote)) : ℚ :=
  mean ((absScores votes).map fun s => s / listMax (absScores votes))

/-- The hard ensemble score as the spec words it: number of anomaly
votes over number of voting models. Stated from the spec, to be
compared with `hardVoting`. -/
def hardSpecScore (votes : List (String × ModelVote)) : ℚ :=
  (((predsOf votes).filter fun b => b).length : ℚ) / ((predsOf votes).length : ℚ)

/-- The weighted ensemble score as the spec words it: the weighted mean
of `|score|` (missing weights defaulting to `1/num_models`) divided by
the maximum `|score|` observed among the scoring models. Stated from
the spec, to be compared with `weightedVoting`. -/
def weightedSpecScore (votes : List (String × ModelVote)) (numModels : Nat) : ℚ :=
  weightedSum (scoresOf votes) numModels / weightSum (scoresOf votes) numModels /
    listMax (absScores votes)

/-! ### Helper lemmas -/

theorem le_foldl_max (l : List ℚ) (a : ℚ) : a ≤ l.foldl max a := by
  induction l generalizing a with
  | nil => exact le_refl a
  | cons x xs ih => exact le_trans (le_max_left a x) (ih (max a x))

theorem mem_le_foldl_max : ∀ (l : List ℚ) (a x : ℚ), x ∈ l → x ≤ l.foldl max a
  | [], _, _, hx => absurd hx (List.not_mem_nil _)
  | y :: ys, a, x, hx => by
    rcases List.mem_cons.mp hx with h | h
    · subst h
      exact le_trans (le_max_right a x) (le_foldl_max ys (max a x))
    · exact mem_le_foldl_max ys (max a y) x h

theorem le_listMax (l : List ℚ) (x : ℚ) (hx : x ∈ l) : x ≤ listMax l := by
  match l, hx with
  | y :: ys, hx =>
    rcases List.mem_cons.mp hx with h | h
    · subst h
      exact le_foldl_max ys x
    · exact mem_le_foldl_max ys y x h

theorem foldl_max_mem : ∀ (l : List ℚ) (a : ℚ), l.foldl max a = a ∨ l.foldl max a ∈ l
  | [], _ => Or.inl rfl
  | x :: xs, a => by
    rcases foldl_max_mem xs (max a x) with h | h
    · rcases max_choice a x with hm | hm
      · left
        rw [List.foldl_cons, h, hm]
      · right
        rw [List.foldl_cons, h, hm]
        exact List.mem_cons_self x xs
    · right
      exact List.mem_cons_of_mem x h

theorem listMax_mem : ∀ (l : List ℚ), l ≠ [] → listMax l ∈ l
  | [], h => absurd rfl h
  | x :: xs, _ => by
    rcases foldl_max_mem xs x with h1 | h1
    · show xs.foldl max x ∈ x :: xs
      rw [h1]
      exact List.mem_cons_self x xs
    · exact List.mem_cons_of_mem x h1

theorem absScores_nonneg (votes : List (String × ModelVote)) :
    ∀ x ∈ absScores votes, 0 ≤ x := by
  intro x hx
  rcases List.mem_map.mp hx with ⟨p, _, rfl⟩
  exact abs_nonneg p.2

theorem absScores_all_zero (votes : List (String × ModelVote))
    (h : listMax (absScores votes) = 0) : ∀ x ∈ absScores votes, x = 0 := by
  intro x hx
  exact le_antisymm (h ▸ le_listMax _ x hx) (absScores_nonneg votes x hx)

theorem step_anomaly_counter (st : PipelineState) (inp : StepInput) :
    (step st inp).1.anomaly_counter =
      if qualifies inp then st.anomaly_counter + 1 else 0 := by
  by_cases h : qualifies inp <;> simp [step, h]

theorem step_ai_status (st : PipelineState) (inp : StepInput) :
    (step st inp).2.ai_status =
      decide (ANOMALY_THRESHOLD ≤ (step st inp).1.anomaly_counter) := by
  by_cases h : qualifies inp <;> simp [step, h, ANOMALY_THRESHOLD]

theorem step_trainingBuffer (st : PipelineState) (inp : StepInput) :
    (step st inp).1.trainingBuffer =
      if inp.model_prediction = false then
        tailN 2000 (st.trainingBuffer ++ [inp.sample])
      else st.trainingBuffer := by
  cases h : inp.model_prediction <;> simp [step, h]

theorem step_anomalyArchive (st : PipelineState) (inp : StepInput) :
    (step st inp).1.anomalyArchive =
      if inp.model_prediction = false then st.anomalyArchive
      else save_detected_anomaly st.anomalyArchive inp.sample := by
  cases h : inp.model_prediction <;> simp [step, h]

theorem step_retrained (st : PipelineState) (inp : StepInput) :
    (step st inp).2.retrained =
      (decide (30 ≤ (step st inp).1.trainingBuffer.length) &&
        decide ((300 : ℚ) < inp.now - st.last_retrain_time)) := by
  cases h : inp.model_prediction <;> simp [step, h]

theorem runSteps_alerts : ∀ (inputs : List StepInput) (st : PipelineState),
    (∀ i ∈ inputs, qualifies i = true) →
    (runSteps st inputs).2 = (List.range inputs.length).map
      fun k => decide (ANOMALY_THRESHOLD ≤ st.anomaly_counter + (k + 1))
  | [], _, _ => by simp [runSteps]
  | i :: is, st, hq => by
    have hqi : qualifies i = true := hq i (List.mem_cons_self i is)
    have hcounter : (step st i).1.anomaly_counter = st.anomaly_counter + 1 := by
      rw [step_anomaly_counter, if_pos hqi]
    have hstatus : (step st i).2.ai_status =
        decide (ANOMALY_THRESHOLD ≤ st.anomaly_counter + 1) := by
      rw [step_ai_status, hcounter]
    have ih := runSteps_alerts is (step st i).1
      fun j hj => hq j (List.mem_cons_of_mem i hj)
    show (step st i).2.ai_status :: (runSteps (step st i).1 is).2 = _
    rw [hstatus, ih, hcounter]
    rw [List.length_cons, List.range_succ_eq_map, List.map_cons, List.map_map]
    refine congrArg₂ List.cons (decide_eq_decide.mpr (by omega)) ?_
    refine List.map_congr_left fun k _ => ?_
    simp only [Function.comp_apply]
    exact decide_eq_decide.mpr (by omega)

/-! ### Claims C1 to C3: the temporal gate, buffer routing and the
retraining condition of `run_pipeline` -/

/-- C1: the temporal gate is a state machine over `anomaly_counter`: a
qualifying sample (raw anomaly label and surge condition) increments
the counter by exactly 1, any other sample resets it to exactly 0, the
alert is emitted iff the updated counter reaches `ANOMALY_THRESHOLD`
(12); and over any run of consecutive qualifying samples started at
counter 0, the k-th iteration alerts iff k ≥ 12, so 11 qualifying
anomalies produce no alert and the 12th produces the first. -/
theorem gate_transition_C1 (st st0 : PipelineState) (inp : StepInput)
    (inputs : List StepInput) (h0 : st0.anomaly_counter = 0)
    (hq : ∀ i ∈ inputs, qualifies i = true) :
    ((qualifies inp = true →
        (step st inp).1.anomaly_counter = st.anomaly_counter + 1) ∧
      (qualifies inp = false → (step st inp).1.anomaly_counter = 0) ∧
      (step st inp).2.ai_status =
        decide (ANOMALY_THRESHOLD ≤ (step st inp).1.anomaly_counter)) ∧
    (runSteps st0 inputs).2 =
      (List.range inputs.length).map fun k => decide (ANOMALY_THRESHOLD ≤ k + 1) := by
  refine ⟨⟨fun h => ?_, fun h => ?_, step_ai_status st inp⟩, ?_⟩
  · rw [step_anomaly_counter, if_pos h]
  · rw [step_anomaly_counter, if_neg (by simp [h])]
  · rw [runSteps_alerts inputs st0 hq, h0]
    simp only [Nat.zero_add]

/-- Witness for C1 at a concrete run: 12 consecutive qualifying samples
from counter 0 alert exactly at the 12th iteration. -/
theorem gate_transition_C1_witness :
    (runSteps ⟨0, [], [], 0⟩ (List.replicate 12 ⟨⟨50, 50, 50⟩, true, 0⟩)).2 =
      (List.range (List.replicate 12
          (⟨⟨50, 50, 50⟩, true, 0⟩ : StepInput)).length).map
        fun k => decide (ANOMALY_THRESHOLD ≤ k + 1) :=
  (gate_transition_C1 ⟨0, [], [], 0⟩ ⟨0, [], [], 0⟩ ⟨⟨50, 50, 50⟩, true, 0⟩
    (List.replicate 12 ⟨⟨50, 50, 50⟩, true, 0⟩) rfl (by
      intro i hi
      rw [List.eq_of_mem_replicate hi]
      simp [qualifies, surge_condition, CPU_SURGE_THRESHOLD]
      norm_num)).2

/-- C2: each live sample is routed by its raw model label, mutually
exclusively: a raw-normal sample is appended to the training buffer
(capped at 2000) and the archive is untouched; a raw-anomaly sample is
appended to the anomaly archive (capped at 1000) and the buffer is
untouched; consequently every sample in the updated buffer either was
already there or is the current sample with a raw-normal label. -/
theorem routing_C2 (st : PipelineState) (inp : StepInput) :
    (inp.model_prediction = false →
      (step st inp).1.trainingBuffer =
        tailN 2000 (st.trainingBuffer ++ [inp.sample]) ∧
      (step st inp).1.anomalyArchive = st.anomalyArchive) ∧
    (inp.model_prediction = true →
      (step st inp).1.trainingBuffer = st.trainingBuffer ∧
      (step st inp).1.anomalyArchive =
        tailN 1000 (st.anomalyArchive ++ [inp.sample])) ∧
    (∀ s ∈ (step st inp).1.trainingBuffer,
      s ∈ st.trainingBuffer ∨ (s = inp.sample ∧ inp.model_prediction = false)) := by
  refine ⟨fun hm => ⟨?_, ?_⟩, fun hm => ⟨?_, ?_⟩, fun s hs => ?_⟩
  · rw [step_trainingBuffer, if_pos hm]
  · rw [step_anomalyArchive, if_pos hm]
  · rw [step_trainingBuffer, if_neg (by simp [hm])]
  · rw [step_anomalyArchive, if_neg (by simp [hm])]
    rfl
  · rw [step_trainingBuffer] at hs
    cases hm : inp.model_prediction with
    | false =>
      rw [if_pos hm] at hs
      have hsub : s ∈ st.trainingBuffer ++ [inp.sample] :=
        List.drop_subset _ _ hs
      rcases List.mem_append.mp hsub with h | h
      · exact Or.inl h
      · exact Or.inr ⟨List.mem_singleton.mp h, rfl⟩
    | true =>
      rw [if_neg (by simp [hm])] at hs
      exact Or.inl hs

/-- Witness for C2 at a concrete iteration: a raw-normal sample enters
the training buffer and leaves the archive unchanged. -/
theorem routing_C2_witness :
    (step ⟨0, [], [], 0⟩ ⟨⟨1, 2, 3⟩, false, 0⟩).1.trainingBuffer =
      tailN 2000 ([] ++ [⟨1, 2, 3⟩]) ∧
    (step ⟨0, [], [], 0⟩ ⟨⟨1, 2, 3⟩, false, 0⟩).1.anomalyArchive = [] :=
  (routing_C2 ⟨0, [], [], 0⟩ ⟨⟨1, 2, 3⟩, false, 0⟩).1 rfl

/-- Counterexample to C3 as stated: with the training buffer holding 30
samples and exactly 300 seconds elapsed since the last retrain, the
claim says retraining fires, but the code requires strictly more than
300 seconds and does not retrain. -/
theorem retrain_condition_C3_counterexample :
    30 ≤ (step ⟨0, List.replicate 30 ⟨1, 1, 1⟩, [], 0⟩
        ⟨⟨1, 1, 1⟩, true, 300⟩).1.trainingBuffer.length ∧
    (300 : ℚ) ≤ (⟨⟨1, 1, 1⟩, true, 300⟩ : StepInput).now -
      (⟨0, List.replicate 30 ⟨1, 1, 1⟩, [], 0⟩ : PipelineState).last_retrain_time ∧
    (step ⟨0, List.replicate 30 ⟨1, 1, 1⟩, [], 0⟩
        ⟨⟨1, 1, 1⟩, true, 300⟩).2.retrained = false := by
  refine ⟨?_, by norm_num, ?_⟩
  · rw [step_trainingBuffer]
    simp
  · rw [step_retrained, step_trainingBuffer]
    norm_num

/-- C3 amended: retraining fires on an iteration iff the training
buffer after this iteration's update holds at least 30 samples AND
strictly more than 300 seconds have elapsed since the last retrain
(the code comparison is strict, so exactly 300 seconds does not fire);
in particular a raw-anomaly iteration with 29 buffered samples never
fires, and a raw-normal iteration that brings the buffer to 30 samples
fires once more than 300 seconds have elapsed. -/
theorem retrain_condition_C3 (st : PipelineState) (inp : StepInput) :
    ((step st inp).2.retrained = true ↔
      (30 ≤ (step st inp).1.trainingBuffer.length ∧
        (300 : ℚ) < inp.now - st.last_retrain_time)) ∧
    (st.trainingBuffer.length = 29 → inp.model_prediction = true →
      (step st inp).2.retrained = false) ∧
    (st.trainingBuffer.length = 29 → inp.model_prediction = false →
      (300 : ℚ) < inp.now - st.last_retrain_time →
      (step st inp).2.retrained = true) := by
  refine ⟨?_, fun h1 h2 => ?_, fun h1 h2 h3 => ?_⟩
  · rw [step_retrained]
    simp
  · rw [step_retrained, step_trainingBuffer, if_neg (by simp [h2]), h1]
    simp
  · rw [step_retrained, step_trainingBuffer, if_pos h2]
    have hlen : (tailN 2000 (st.trainingBuffer ++ [inp.sample])).length = 30 := by
      simp [tailN, List.length_drop, h1]
    rw [hlen]
    simp [h3]

/-- Witness for the amended C3: 29 buffered samples plus a raw-normal
sample at 301 elapsed seconds retrains. -/
theorem retrain_condition_C3_witness :
    (step ⟨0, List.replicate 29 ⟨1, 1, 1⟩, [], 0⟩
        ⟨⟨1, 1, 1⟩, false, 301⟩).2.retrained = true :=
  (retrain_condition_C3 ⟨0, List.replicate 29 ⟨1, 1, 1⟩, [], 0⟩
      ⟨⟨1, 1, 1⟩, false, 301⟩).2.2 (by simp) rfl (by norm_num)

/-! ### Ensemble helper lemmas -/

theorem softVoting_eq_spec (votes : List (String × ModelVote)) (t : ℚ)
    (hne : absScores votes ≠ []) :
    softVoting votes t = (softSpecScore votes, decide (t ≤ softSpecScore votes)) := by
  by_cases h : listMax (absScores votes) = 0
  · have hz := absScores_all_zero votes h
    have e1 : ((absScores votes).map fun s => s / (1 : ℚ)).sum = 0 :=
      List.sum_eq_zero (by
        intro x hx
        rcases List.mem_map.mp hx with ⟨s, hs, rfl⟩
        rw [hz s hs]
        norm_num)
    have e2 : ((absScores votes).map fun s => s / listMax (absScores votes)).sum = 0 :=
      List.sum_eq_zero (by
        intro x hx
        rcases List.mem_map.mp hx with ⟨s, hs, rfl⟩
        rw [hz s hs]
        norm_num)
    simp only [softVoting, softSpecScore, mean, if_neg hne, if_pos h, e1, e2]
    norm_num
  · simp only [softVoting, softSpecScore, mean, if_neg hne, if_neg h]

theorem hardVoting_eq_spec (votes : List (String × ModelVote))
    (hne : predsOf votes ≠ []) :
    hardVoting votes =
      (hardSpecScore votes, decide ((2 : ℚ) / 3 ≤ hardSpecScore votes)) := by
  have htot : (0 : ℚ) < ((predsOf votes).length : ℚ) := by
    exact_mod_cast List.length_pos.mpr hne
  have h3 : (0 : ℚ) < 3 := by norm_num
  simp only [hardVoting, hardSpecScore, if_neg hne]
  refine congrArg₂ Prod.mk rfl (decide_eq_decide.mpr ?_)
  rw [div_le_iff₀ h3, div_le_div_iff₀ h3 htot]
  constructor <;> intro h <;> linarith

theorem getWeight_pos (numModels : Nat) (h : 0 < numModels) (name : String) :
    0 < getWeight numModels name := by
  have hn : (0 : ℚ) < (numModels : ℚ) := by exact_mod_cast h
  unfold getWeight MODEL_WEIGHTS
  split
  · norm_num
  · split
    · norm_num
    · split
      · norm_num
      · simp only [Option.getD_none]
        positivity

theorem weightSum_pos (pairs : List (String × ℚ)) (numModels : Nat)
    (h : 0 < numModels) (hne : pairs ≠ []) : 0 < weightSum pairs numModels := by
  refine List.sum_pos _ ?_ (by simp [hne])
  intro x hx
  rcases List.mem_map.mp hx with ⟨p, _, rfl⟩
  exact getWeight_pos numModels h p.1

theorem weightedVoting_eq_spec (votes : List (String × ModelVote))
    (numModels : Nat) (t : ℚ) (hne : scoresOf votes ≠ []) (hm : 0 < numModels) :
    weightedVoting votes numModels t =
      (weightedSpecScore votes numModels,
        decide (t ≤ weightedSpecScore votes numModels)) := by
  have hwpos := weightSum_pos (scoresOf votes) numModels hm hne
  have habs : absScores votes ≠ [] := by simp [absScores, hne]
  simp only [weightedVoting, weightedSpecScore, if_neg (ne_of_gt hwpos), if_neg habs]
  by_cases hmax : 0 < listMax (absScores votes)
  · rw [if_pos hmax]
  · rw [if_neg hmax]
    have hmax0 : listMax (absScores votes) = 0 :=
      le_antisymm (not_lt.mp hmax) (absScores_nonneg votes _ (listMax_mem _ habs))
    have hz : weightedSum (scoresOf votes) numModels = 0 := by
      refine List.sum_eq_zero ?_
      intro x hx
      rcases List.mem_map.mp hx with ⟨p, hp, rfl⟩
      have h0 : |p.2| = 0 :=
        absScores_all_zero votes hmax0 |p.2| (List.mem_map_of_mem _ hp)
      rw [h0, zero_mul]
    simp only [hz, hmax0]
    norm_num

theorem predsOf_append (a b : List (String × ModelVote)) :
    predsOf (a ++ b) = predsOf a ++ predsOf b := by
  simp [predsOf, List.filterMap_append]

theorem scoresOf_append (a b : List (String × ModelVote)) :
    scoresOf (a ++ b) = scoresOf a ++ scoresOf b := by
  simp [scoresOf, List.filterMap_append]

theorem predsOf_err_cons (name e : String) (votes : List (String × ModelVote)) :
    predsOf ((name, ModelVote.err e) :: votes) = predsOf votes := by
  simp [predsOf]

theorem scoresOf_err_cons (name e : String) (votes : List (String × ModelVote)) :
    scoresOf ((name, ModelVote.err e) :: votes) = scoresOf votes := by
  simp [scoresOf]

theorem combineVotes_congr (d : EnsembleDetector) (A B : List (String × ModelVote))
    (hp : predsOf A = predsOf B) (hsc : scoresOf A = scoresOf B) :
    combineVotes d A = combineVotes d B := by
  cases hst : d.strategy <;>
    simp [combineVotes, hst, hardVoting, softVoting, weightedVoting,
      absScores, weightSum, weightedSum, hp, hsc]

/-! ### Claims C4 to C7: the ensemble strategies -/

/-- C4: with strategy `soft`, a length-3 feature vector and at least one
model producing a score, `predict` returns the mean of each model's
|score| divided by the call's maximum |score|, labels anomaly iff that
mean reaches the threshold, and on scores [-0.2, -0.8, -0.4] with
threshold 0.5 yields score 7/12 = 0.5833... and the anomaly label. -/
theorem soft_strategy_C4 (d : EnsembleDetector) (features : List ℚ)
    (modelResults : List (String × Except String (Bool × ℚ)))
    (hs : d.strategy = Strategy.soft) (hf : features.length = 3)
    (hne : absScores (votesOf modelResults) ≠ []) :
    d.predict features modelResults =
      Except.ok (softSpecScore (votesOf modelResults),
        decide (d.threshold ≤ softSpecScore (votesOf modelResults)),
        votesOf modelResults) ∧
    softVoting [("a", ModelVote.ok true (-1/5)), ("b", ModelVote.ok true (-4/5)),
        ("c", ModelVote.ok true (-2/5))] (1/2) = (7/12, true) := by
  constructor
  · simp only [EnsembleDetector.predict]
    rw [if_neg (by simp [hf])]
    simp only [combineVotes, hs]
    rw [softVoting_eq_spec _ _ hne]
  · norm_num [softVoting, absScores, scoresOf, listMax, List.filterMap,
      abs_of_nonneg, abs_of_nonpos, sup_eq_max, max_def]
    all_goals simp

/-- Witness for C4: a concrete soft-strategy call on the three scores of
the claim. -/
theorem soft_strategy_C4_witness :
    (EnsembleDetector.predict ⟨Strategy.soft, 1/2, 3⟩ [30, 45, 500]
        [("isolation_forest_model.pkl", Except.ok (true, -1/5)),
          ("elliptic_envelope_model.pkl", Except.ok (true, -4/5)),
          ("lof_model_model.pkl", Except.ok (true, -2/5))] =
      Except.ok (softSpecScore (votesOf
          [("isolation_forest_model.pkl", Except.ok (true, -1/5)),
            ("elliptic_envelope_model.pkl", Except.ok (true, -4/5)),
            ("lof_model_model.pkl", Except.ok (true, -2/5))]),
        decide ((1:ℚ)/2 ≤ softSpecScore (votesOf
          [("isolation_forest_model.pkl", Except.ok (true, -1/5)),
            ("elliptic_envelope_model.pkl", Except.ok (true, -4/5)),
            ("lof_model_model.pkl", Except.ok (true, -2/5))])),
        votesOf [("isolation_forest_model.pkl", Except.ok (true, -1/5)),
          ("elliptic_envelope_model.pkl", Except.ok (true, -4/5)),
          ("lof_model_model.pkl", Except.ok (true, -2/5))])) ∧
    softVoting [("a", ModelVote.ok true (-1/5)), ("b", ModelVote.ok true (-4/5)),
        ("c", ModelVote.ok true (-2/5))] (1/2) = (7/12, true) :=
  soft_strategy_C4 ⟨Strategy.soft, 1/2, 3⟩ [30, 45, 500]
    [("isolation_forest_model.pkl", Except.ok (true, -1/5)),
      ("elliptic_envelope_model.pkl", Except.ok (true, -4/5)),
      ("lof_model_model.pkl", Except.ok (true, -2/5))]
    rfl rfl (by simp [absScores, scoresOf, votesOf, runModel])

/-- C5: with strategy `hard`, a length-3 feature vector and at least one
model producing a prediction, `predict` returns the fraction of anomaly
votes as the score and labels anomaly iff that fraction is at least 2/3;
votes [anomaly, anomaly, normal] give score 2/3 and label anomaly, votes
[anomaly, normal, normal] give score 1/3 and label normal. -/
theorem hard_strategy_C5 (d : EnsembleDetector) (features : List ℚ)
    (modelResults : List (String × Except String (Bool × ℚ)))
    (hs : d.strategy = Strategy.hard) (hf : features.length = 3)
    (hne : predsOf (votesOf modelResults) ≠ []) :
    d.predict features modelResults =
      Except.ok (hardSpecScore (votesOf modelResults),
        decide ((2 : ℚ) / 3 ≤ hardSpecScore (votesOf modelResults)),
        votesOf modelResults) ∧
    hardVoting [("a", ModelVote.ok true 0), ("b", ModelVote.ok true 0),
        ("c", ModelVote.ok false 0)] = (2/3, true) ∧
    hardVoting [("a", ModelVote.ok true 0), ("b", ModelVote.ok false 0),
        ("c", ModelVote.ok false 0)] = (1/3, false) := by
  refine ⟨?_, ?_, ?_⟩
  · simp only [EnsembleDetector.predict]
    rw [if_neg (by simp [hf])]
    simp only [combineVotes, hs]
    rw [hardVoting_eq_spec _ hne]
  · norm_num [hardVoting, predsOf, List.filterMap, List.filter]
    all_goals simp
  · norm_num [hardVoting, predsOf, List.filterMap, List.filter]
    all_goals simp

/-- Witness for C5: a concrete hard-strategy call with votes
[anomaly, anomaly, normal]. -/
theorem hard_strategy_C5_witness :
    (EnsembleDetector.predict ⟨Strategy.hard, 1/2, 3⟩ [30, 45, 500]
        [("a", Except.ok (true, -1/5)), ("b", Except.ok (true, -4/5)),
          ("c", Except.ok (false, -2/5))] =
      Except.ok (hardSpecScore (votesOf
          [("a", Except.ok (true, -1/5)), ("b", Except.ok (true, -4/5)),
            ("c", Except.ok (false, -2/5))]),
        decide ((2 : ℚ) / 3 ≤ hardSpecScore (votesOf
          [("a", Except.ok (true, -1/5)), ("b", Except.ok (true, -4/5)),
            ("c", Except.ok (false, -2/5))])),
        votesOf [("a", Except.ok (true, -1/5)), ("b", Except.ok (true, -4/5)),
          ("c", Except.ok (false, -2/5))])) ∧
    hardVoting [("a", ModelVote.ok true 0), ("b", ModelVote.ok true 0),
        ("c", ModelVote.ok false 0)] = (2/3, true) ∧
    hardVoting [("a", ModelVote.ok true 0), ("b", ModelVote.ok false 0),
        ("c", ModelVote.ok false 0)] = (1/3, false) :=
  hard_strategy_C5 ⟨Strategy.hard, 1/2, 3⟩ [30, 45, 500]
    [("a", Except.ok (true, -1/5)), ("b", Except.ok (true, -4/5)),
      ("c", Except.ok (false, -2/5))]
    rfl rfl (by simp [predsOf, votesOf, runModel])

/-- C6: with strategy `weighted`, a length-3 feature vector, at least
one model producing a score and a non-empty model registry, `predict`
returns the weighted mean of the models' |score| values (table weight,
defaulting to 1/num_models) divided by the maximum observed |score|,
and labels anomaly iff that score reaches the threshold. -/
theorem weighted_strategy_C6 (d : EnsembleDetector) (features : List ℚ)
    (modelResults : List (String × Except String (Bool × ℚ)))
    (hs : d.strategy = Strategy.weighted) (hf : features.length = 3)
    (hne : scoresOf (votesOf modelResults) ≠ []) (hm : 0 < d.numModels) :
    d.predict features modelResults =
      Except.ok (weightedSpecScore (votesOf modelResults) d.numModels,
        decide (d.threshold ≤ weightedSpecScore (votesOf modelResults) d.numModels),
        votesOf modelResults) := by
  simp only [EnsembleDetector.predict]
  rw [if_neg (by simp [hf])]
  simp only [combineVotes, hs]
  rw [weightedVoting_eq_spec _ _ _ hne hm]

/-- Witness for C6: a concrete weighted-strategy call with one model in
the static weight table and one model falling back to the default
weight. -/
theorem weighted_strategy_C6_witness :
    EnsembleDetector.predict ⟨Strategy.weighted, 1/2, 2⟩ [30, 45, 500]
        [("isolation_forest_model.pkl", Except.ok (true, -1/2)),
          ("custom_model.pkl", Except.ok (false, 1/4))] =
      Except.ok (weightedSpecScore (votesOf
          [("isolation_forest_model.pkl", Except.ok (true, -1/2)),
            ("custom_model.pkl", Except.ok (false, 1/4))]) 2,
        decide ((1:ℚ)/2 ≤ weightedSpecScore (votesOf
          [("isolation_forest_model.pkl", Except.ok (true, -1/2)),
            ("custom_model.pkl", Except.ok (false, 1/4))]) 2),
        votesOf [("isolation_forest_model.pkl", Except.ok (true, -1/2)),
          ("custom_model.pkl", Except.ok (false, 1/4))]) :=
  weighted_strategy_C6 ⟨Strategy.weighted, 1/2, 2⟩ [30, 45, 500]
    [("isolation_forest_model.pkl", Except.ok (true, -1/2)),
      ("custom_model.pkl", Except.ok (false, 1/4))]
    rfl rfl (by simp [scoresOf, votesOf, runModel]) (by norm_num)

/-- C7: a model whose run raises is excluded from the aggregation, is
recorded in the vote map with an error marker, and does not abort the
decision: `predict` still returns a triple, with the same ensemble
score and label as the call without the failing model. -/
theorem ensemble_isolation_C7 (d : EnsembleDetector) (features : List ℚ)
    (pre post : List (String × Except String (Bool × ℚ))) (name e : String)
    (hf : features.length = 3) :
    ∃ sc pr,
      d.predict features (pre ++ (name, Except.error e) :: post) =
        Except.ok (sc, pr, votesOf pre ++ (name, ModelVote.err e) :: votesOf post) ∧
      d.predict features (pre ++ post) =
        Except.ok (sc, pr, votesOf (pre ++ post)) := by
  have hv : votesOf (pre ++ (name, Except.error e) :: post) =
      votesOf pre ++ (name, ModelVote.err e) :: votesOf post := by
    simp [votesOf, runModel]
  have hv2 : votesOf (pre ++ post) = votesOf pre ++ votesOf post := by
    simp [votesOf]
  have hp : predsOf (votesOf pre ++ (name, ModelVote.err e) :: votesOf post) =
      predsOf (votesOf (pre ++ post)) := by
    rw [predsOf_append, predsOf_err_cons, hv2, predsOf_append]
  have hsc : scoresOf (votesOf pre ++ (name, ModelVote.err e) :: votesOf post) =
      scoresOf (votesOf (pre ++ post)) := by
    rw [scoresOf_append, scoresOf_err_cons, hv2, scoresOf_append]
  refine ⟨(combineVotes d (votesOf (pre ++ post))).1,
    (combineVotes d (votesOf (pre ++ post))).2, ?_, ?_⟩
  · simp only [EnsembleDetector.predict]
    rw [if_neg (by simp [hf]), hv, combineVotes_congr d _ _ hp hsc]
  · simp only [EnsembleDetector.predict]
    rw [if_neg (by simp [hf])]

/-- Witness for C7: a concrete call where the middle model raises. -/
theorem ensemble_isolation_C7_witness :
    ∃ sc pr,
      EnsembleDetector.predict ⟨Strategy.soft, 1/2, 3⟩ [30, 45, 500]
          ([("a", Except.ok (true, -1/5))] ++
            ("b", Except.error "predict failed") :: [("c", Except.ok (false, -2/5))]) =
        Except.ok (sc, pr, votesOf [("a", Except.ok (true, -1/5))] ++
          ("b", ModelVote.err "predict failed") ::
            votesOf [("c", Except.ok (false, -2/5))]) ∧
      EnsembleDetector.predict ⟨Strategy.soft, 1/2, 3⟩ [30, 45, 500]
          ([("a", Except.ok (true, -1/5))] ++ [("c", Except.ok (false, -2/5))]) =
        Except.ok (sc, pr, votesOf
          ([("a", Except.ok (true, -1/5))] ++ [("c", Except.ok (false, -2/5))])) :=
  ensemble_isolation_C7 ⟨Strategy.soft, 1/2, 3⟩ [30, 45, 500]
    [("a", Except.ok (true, -1/5))] [("c", Except.ok (false, -2/5))]
    "b" "predict failed" rfl

/-! ### Claims C8 to C10: configuration errors and safety of the
ensemble combiner -/

/-- Counterexample to C8 as stated: constructing an `EnsembleDetector`
with a decision threshold of 2, which is outside [0, 1], succeeds
without any error; the constructor never validates the threshold. -/
theorem config_errors_C8_counterexample :
    EnsembleDetector.init "soft" 2 3 = Except.ok ⟨Strategy.soft, 2, 3⟩ ∧
    ¬((2 : ℚ) ≤ 1) := by
  have h : parseStrategy "soft" = some Strategy.soft := by decide
  refine ⟨?_, by norm_num⟩
  simp [EnsembleDetector.init, h]

/-- C8 amended: constructing with a strategy outside hard/soft/weighted
raises an error, and calling `predict` with a feature vector whose
length is not 3 raises an error; an out-of-range threshold raises an
error when supplied through `set_threshold`, but the constructor stores
an out-of-range threshold without validation. -/
theorem config_errors_C8 :
    (∀ (s : String) (t : ℚ) (n : Nat), parseStrategy s = none →
      EnsembleDetector.init s t n =
        Except.error ("Strategy must be one of: hard, soft, weighted")) ∧
    (∀ (d : EnsembleDetector) (features : List ℚ)
        (modelResults : List (String × Except String (Bool × ℚ))),
      features.length ≠ 3 →
      d.predict features modelResults = Except.error ("Expected 3 features")) ∧
    (∀ (d : EnsembleDetector) (t : ℚ), ¬(0 ≤ t ∧ t ≤ 1) →
      d.set_threshold t = Except.error ("Threshold must be between 0 and 1")) ∧
    (∀ (s : String) (t : ℚ) (n : Nat) (str : Strategy),
      parseStrategy s = some str →
      EnsembleDetector.init s t n = Except.ok ⟨str, t, n⟩) := by
  refine ⟨fun s t n h => ?_, fun d features modelResults h => ?_,
    fun d t h => ?_, fun s t n str h => ?_⟩
  · simp [EnsembleDetector.init, h]
  · simp [EnsembleDetector.predict, h]
  · simp [EnsembleDetector.set_threshold, h]
  · simp [EnsembleDetector.init, h]

/-- Witness for the amended C8: a concrete bad strategy, a concrete
2-element feature vector, and a concrete threshold of 2 each raise. -/
theorem config_errors_C8_witness :
    EnsembleDetector.init "majority" (1/2) 3 =
      Except.error ("Strategy must be one of: hard, soft, weighted") ∧
    EnsembleDetector.predict ⟨Strategy.soft, 1/2, 3⟩ [30, 45] [] =
      Except.error ("Expected 3 features") ∧
    EnsembleDetector.set_threshold ⟨Strategy.soft, 1/2, 3⟩ 2 =
      Except.error ("Threshold must be between 0 and 1") :=
  ⟨config_errors_C8.1 "majority" (1/2) 3 (by decide),
    config_errors_C8.2.1 ⟨Strategy.soft, 1/2, 3⟩ [30, 45] [] (by norm_num),
    config_errors_C8.2.2.1 ⟨Strategy.soft, 1/2, 3⟩ 2 (by norm_num)⟩

/-- C9: no strategy divides by zero and error-marked models are excluded
rather than counted as zero: with no usable votes or scores every
strategy returns score 0 and the normal label, soft voting substitutes
1.0 for a zero maximum |score|, weighted voting returns (0, normal)
when the total weight is zero, and prepending an error-marked model
changes no strategy's result. -/
theorem ensemble_safety_C9 :
    (∀ votes : List (String × ModelVote),
      predsOf votes = [] → hardVoting votes = (0, false)) ∧
    (∀ (votes : List (String × ModelVote)) (t : ℚ),
      absScores votes = [] → softVoting votes t = (0, false)) ∧
    (∀ (votes : List (String × ModelVote)) (t : ℚ), absScores votes ≠ [] →
      listMax (absScores votes) = 0 →
      softVoting votes t = (0, decide (t ≤ 0))) ∧
    (∀ (votes : List (String × ModelVote)) (n : Nat) (t : ℚ),
      weightSum (scoresOf votes) n = 0 → weightedVoting votes n t = (0, false)) ∧
    (∀ (votes : List (String × ModelVote)) (n : Nat) (t : ℚ) (name e : String),
      hardVoting ((name, ModelVote.err e) :: votes) = hardVoting votes ∧
      softVoting ((name, ModelVote.err e) :: votes) t = softVoting votes t ∧
      weightedVoting ((name, ModelVote.err e) :: votes) n t =
        weightedVoting votes n t) := by
  refine ⟨fun votes h => ?_, fun votes t h => ?_, fun votes t hne h => ?_,
    fun votes n t h => ?_, fun votes n t name e => ⟨?_, ?_, ?_⟩⟩
  · simp [hardVoting, h]
  · simp [softVoting, h]
  · have e1 : ((absScores votes).map fun s => s / (1 : ℚ)).sum = 0 :=
      List.sum_eq_zero (by
        intro x hx
        rcases List.mem_map.mp hx with ⟨s, hs, rfl⟩
        rw [absScores_all_zero votes h s hs]
        norm_num)
    simp only [softVoting, if_neg hne, if_pos h, e1]
    norm_num
  · simp [weightedVoting, h]
  · simp [hardVoting, predsOf_err_cons]
  · simp [softVoting, absScores, scoresOf_err_cons]
  · simp [weightedVoting, absScores, weightSum, weightedSum, scoresOf_err_cons]

/-- Witness for C9 at concrete inputs: an all-error vote map, an empty
vote map, an all-zero-score call, and a zero total weight. -/
theorem ensemble_safety_C9_witness :
    hardVoting [("m", ModelVote.err "boom")] = (0, false) ∧
    softVoting ([] : List (String × ModelVote)) 1 = (0, false) ∧
    softVoting [("m", ModelVote.ok true 0)] (1/2) = (0, decide ((1:ℚ)/2 ≤ 0)) ∧
    weightedVoting ([] : List (String × ModelVote)) 3 1 = (0, false) ∧
    softVoting [("m", ModelVote.err "boom"), ("n", ModelVote.ok true (-1/2))] (1/2) =
      softVoting [("n", ModelVote.ok true (-1/2))] (1/2) :=
  ⟨ensemble_safety_C9.1 _ (by simp [predsOf]),
    ensemble_safety_C9.2.1 _ 1 (by simp [absScores, scoresOf]),
    ensemble_safety_C9.2.2.1 _ (1/2) (by simp [absScores, scoresOf])
      (by simp [absScores, scoresOf, listMax]),
    ensemble_safety_C9.2.2.2.1 _ 3 1 (by simp [weightSum, scoresOf]),
    (ensemble_safety_C9.2.2.2.2 [("n", ModelVote.ok true (-1/2))] 3 (1/2)
      "m" "boom").2.1⟩

/-- Counterexample to C10 as stated: one scoring model whose score is 0
gives soft ensemble score 0, which is below 1/n = 1/1, because the
zero maximum is replaced by 1 rather than normalising some score to 1. -/
theorem soft_lower_bound_C10_counterexample :
    (softVoting [("m", ModelVote.ok true 0)] (1/2)).1 = 0 ∧
    (absScores [("m", ModelVote.ok true 0)]).length = 1 ∧
    ¬(1 / ((absScores [("m", ModelVote.ok true 0)]).length : ℚ) ≤
      (softVoting [("m", ModelVote.ok true 0)] (1/2)).1) := by
  refine ⟨?_, by simp [absScores, scoresOf], ?_⟩ <;>
    norm_num [softVoting, absScores, scoresOf, listMax, List.filterMap]

/-- C10 amended: provided at least one scoring model has a nonzero
score, the maximum-|score| normalisation puts the value 1 among the
normalized scores, so the soft ensemble score is at least 1/n for n
scoring models; with exactly one scoring model the score is exactly 1
and the label is anomaly for every threshold at most 1. -/
theorem soft_lower_bound_C10 (votes : List (String × ModelVote)) (t : ℚ)
    (hne : absScores votes ≠ []) (hmax : listMax (absScores votes) ≠ 0) :
    1 / ((absScores votes).length : ℚ) ≤ (softVoting votes t).1 ∧
    (∀ a : ℚ, absScores votes = [a] →
      (softVoting votes t).1 = 1 ∧ (t ≤ 1 → (softVoting votes t).2 = true)) := by
  have hmaxmem := listMax_mem _ hne
  have hmaxpos : 0 < listMax (absScores votes) :=
    lt_of_le_of_ne (absScores_nonneg votes _ hmaxmem) (Ne.symm hmax)
  have hlen : (0 : ℚ) < ((absScores votes).length : ℚ) := by
    exact_mod_cast List.length_pos.mpr hne
  constructor
  · simp only [softVoting, if_neg hne, if_neg hmax]
    have hone : listMax (absScores votes) / listMax (absScores votes) ∈
        (absScores votes).map fun s => s / listMax (absScores votes) :=
      List.mem_map_of_mem _ hmaxmem
    have hsum : 1 ≤ ((absScores votes).map
        fun s => s / listMax (absScores votes)).sum := by
      have hs := List.single_le_sum (l := (absScores votes).map
          fun s => s / listMax (absScores votes)) (by
        intro x hx
        rcases List.mem_map.mp hx with ⟨s, hs, rfl⟩
        exact div_nonneg (absScores_nonneg votes s hs) (le_of_lt hmaxpos)) _ hone
      rwa [div_self hmax] at hs
    rw [List.length_map]
    calc 1 / ((absScores votes).length : ℚ)
        ≤ ((absScores votes).map
            fun s => s / listMax (absScores votes)).sum /
          ((absScores votes).length : ℚ) := by gcongr
      _ = _ := rfl
  · intro a ha
    have hmaxa : listMax (absScores votes) = a := by
      rw [ha]
      rfl
    have hane : a ≠ 0 := hmaxa ▸ hmax
    refine ⟨?_, fun ht => ?_⟩
    · simp [softVoting, ha, listMax, hane, div_self hane]
    · simp [softVoting, ha, listMax, hane, div_self hane, ht]

/-- Witness for the amended C10: one scoring model with nonzero score
1/2 yields soft ensemble score 1 and an anomaly label at threshold 1. -/
theorem soft_lower_bound_C10_witness :
    (1 / ((absScores [("m", ModelVote.ok true (1/2))]).length : ℚ) ≤
      (softVoting [("m", ModelVote.ok true (1/2))] 1).1) ∧
    (∀ a : ℚ, absScores [("m", ModelVote.ok true (1/2))] = [a] →
      (softVoting [("m", ModelVote.ok true (1/2))] 1).1 = 1 ∧
      ((1:ℚ) ≤ 1 → (softVoting [("m", ModelVote.ok true (1/2))] 1).2 = true)) :=
  soft_lower_bound_C10 [("m", ModelVote.ok true (1/2))] 1
    (by simp [absScores, scoresOf])
    (by norm_num [absScores, scoresOf, listMax, List.filterMap, abs_of_nonneg])

end AnomalyDetection
